import Mathlib

/-!
Shallow embedding of the talkback-api backend (Python/FastAPI) for the parts
exercised by the frozen claims:

* `src/app/chat/tools.py`   — tool definitions, `ToolExecutor` and its handlers,
  `get_enabled_tools`.
* `src/app/chat/router.py`  — `handle_tool_calling`, the bounded tool-calling
  conversation loop over the model-inference provider.
* `src/app/chat/services.py` — `ChatService` (persistence read operations that
  the tool handlers call).
* `src/app/tts/router.py`   — `strip_markdown`, the markdown-to-speech text
  sanitizer (a fixed pipeline of regex substitutions).
* `src/app/config.py`       — the `Settings` fields that govern tool enablement.

Modelling conventions: Python strings are Lean `String` / `List Char`;
Python exceptions are an explicit `PyErr` error monad (`Except PyErr`);
Python dict results of the tool executor are a structure with a `success`
flag, an optional payload and an optional error string; Python numbers inside
the `calculate` tool are exact rationals (CPython floats are idealized as
exact arithmetic; no claim depends on float rounding).  The wall clock and
the inference provider are oracle parameters.
-/

/-! ## Python string primitives -/

/-- Characters matched by Python's `\s` class (and removed by `str.strip()`)
for ASCII input: space, tab, newline, carriage return, vertical tab, form feed. -/
def pySpace (c : Char) : Bool :=
  c = ' ' || c = '\t' || c = '\n' || c = '\r' || c = '\x0b' || c = '\x0c'

/-- Python `str.lower()`, restricted to ASCII case folding (the repository only
feeds chat text through it; the claims use ASCII inputs). -/
def pyLower (s : String) : String :=
  ⟨s.data.map Char.toLower⟩

/-- Python `str.strip()`: drop leading and trailing whitespace. -/
def pyStrip (s : String) : String :=
  ⟨((s.data.dropWhile pySpace).reverse.dropWhile pySpace).reverse⟩

/-- Python's `needle in hay` substring test on lists of characters.
The empty needle is contained in every string, as in Python. -/
def substrIn (needle : List Char) : List Char → Bool
  | [] => needle.isEmpty
  | c :: cs => needle.isPrefixOf (c :: cs) || substrIn needle cs

/-- Python's `needle in hay` on `String`. -/
def pyContains (hay needle : String) : Bool :=
  substrIn needle.data hay.data

/-- Python truthiness of a string: `""` is falsy, everything else truthy. -/
def pyTruthy (s : String) : Bool := !(s = "")

/-- Python `a or b` for strings: `a` when truthy, else `b`. -/
def pyOr (a b : String) : String := if pyTruthy a then a else b

/-! ## Python exceptions -/

/-- The exceptions that can surface in the embedded fragment. -/
inductive PyErr where
  /-- `AttributeError`: object of class `obj` has no attribute `attr`. -/
  | attributeError (obj attr : String)
  /-- `ZeroDivisionError` raised by `/`, `//` or `%` with zero divisor. -/
  | zeroDivisionError
  /-- `SyntaxError` from compiling an expression passed to `eval`. -/
  | syntaxError
  /-- Model boundary: `**` with a non-integer exponent would produce a CPython
  float power that the rational-number idealization does not represent. -/
  | nonIntPow
  deriving DecidableEq, Repr

/-- Python `str(e)` for the embedded exceptions.  CPython quotes the class and
attribute names of an `AttributeError`; the model renders them unquoted, which
no claim distinguishes. -/
def pyStr : PyErr → String
  | .attributeError obj attr => obj ++ " object has no attribute " ++ attr
  | .zeroDivisionError => "division by zero"
  | .syntaxError => "invalid syntax"
  | .nonIntPow => "non-integer power"

/-! ## Tool executor result dictionaries

`ToolExecutor.execute` and every handler return a dict with a `success` key,
a `result` key on success and an `error` key on failure
(`src/app/chat/tools.py`). -/

/-- One chat summary row produced by `_list_user_chats`. -/
structure ChatSummary where
  id : Nat
  title : String
  created_at : String
  updated_at : String
  deriving DecidableEq, Repr

/-- One search hit produced by `_search_chat_history`: content is the message
text truncated to 200 characters plus an ellipsis marker when longer. -/
structure SearchHit where
  chat_id : Nat
  chat_title : String
  message_id : Nat
  role : String
  content : String
  created_at : String
  deriving DecidableEq, Repr

/-- Wall-clock snapshot used by `_get_current_time` (`datetime.now()` rendered
into the fields the handler emits). -/
structure TimeInfo where
  datetime : String
  date : String
  time : String
  day_of_week : String
  timestamp : Int
  deriving DecidableEq, Repr

/-- The `result` payload of a successful tool execution, one constructor per
tool handler. -/
inductive ToolOutput where
  | timeInfo (datetime date time day_of_week timezone : String) (timestamp : Int)
  | calcAnswer (expression : String) (answer : Rat)
  | chatList (total_chats : Nat) (chats : List ChatSummary)
  | searchOut (query : String) (total_results : Nat) (results : List SearchHit)
  deriving DecidableEq, Repr

/-- The dict returned by the executor: `success`, optional `result`,
optional `error`. -/
structure ExecResult where
  success : Bool
  result : Option ToolOutput
  error : Option String
  deriving DecidableEq, Repr

/-- Successful result dict. -/
def okResult (p : ToolOutput) : ExecResult := ⟨true, some p, none⟩

/-- Failure result dict. -/
def errResult (msg : String) : ExecResult := ⟨false, none, some msg⟩

/-- The `except Exception` wrapper each handler body runs under: a raised
exception is converted to a failure result via `str(e)`. -/
def catchAll (body : Except PyErr ExecResult) : ExecResult :=
  match body with
  | .ok r => r
  | .error e => errResult (pyStr e)

/-- The input dict passed to a tool invocation; every field is optional, as a
Python dict key (`tool_input.get(...)` supplies the defaults). -/
structure ToolInput where
  expression : Option String := none
  timezone : Option String := none
  query : Option String := none
  limit : Option Int := none
  deriving DecidableEq, Repr

/-! ## The calculate tool: `eval` over the allowed character set

`_calculate` (`src/app/chat/tools.py` lines 155-181) first checks the
expression against an allow-set of characters and only then calls CPython
`eval` with empty builtins.  The embedding implements the arithmetic language
reachable through that allow-set: integer and decimal literals, `+ - * /`,
`//`, `%`, `**`, unary sign and parentheses, with Python operator precedence.
Values are exact rationals; `/`, `//` and `%` with a zero divisor raise
`ZeroDivisionError`; malformed input raises `SyntaxError` at compile time,
before any arithmetic runs, as `eval` compiles the whole expression first. -/

/-- Tokens of the arithmetic fragment. -/
inductive CTok where
  | num (q : Rat)
  | plus
  | minus
  | star
  | dstar
  | slash
  | dslash
  | percent
  | lparen
  | rparen
  deriving DecidableEq, Repr

/-- Digits to a natural number, most significant first. -/
def digitsToNat (ds : List Char) : Nat :=
  ds.foldl (fun acc c => 10 * acc + (c.toNat - '0'.toNat)) 0

/-- Value of an integer part and a fractional digit string, as a rational. -/
def decimalVal (intPart fracPart : List Char) : Rat :=
  (digitsToNat intPart : Rat) +
    (digitsToNat fracPart : Rat) / ((10 : Rat) ^ fracPart.length)

/-- Tokenizer loop for the allow-set characters, structurally recursive on a
fuel bound.  Every step consumes at least one character, so a fuel of
`length + 1` never runs out; the fuel-exhaustion branch is unreachable.
Mirrors the CPython lexer on this fragment: a numeric literal is `digits`,
`digits.digits`, `digits.` or `.digits`; a bare `.` or adjacent extra dots
fail to lex (SyntaxError). -/
def cTokenizeAux : Nat → List Char → Except PyErr (List CTok)
  | 0, _ => .error .syntaxError
  | _ + 1, [] => .ok []
  | fuel + 1, c :: cs =>
    if c = ' ' then cTokenizeAux fuel cs
    else if c = '+' then do pure (CTok.plus :: (← cTokenizeAux fuel cs))
    else if c = '-' then do pure (CTok.minus :: (← cTokenizeAux fuel cs))
    else if c = '*' then
      match cs with
      | '*' :: rest => do pure (CTok.dstar :: (← cTokenizeAux fuel rest))
      | _ => do pure (CTok.star :: (← cTokenizeAux fuel cs))
    else if c = '/' then
      match cs with
      | '/' :: rest => do pure (CTok.dslash :: (← cTokenizeAux fuel rest))
      | _ => do pure (CTok.slash :: (← cTokenizeAux fuel cs))
    else if c = '%' then do pure (CTok.percent :: (← cTokenizeAux fuel cs))
    else if c = '(' then do pure (CTok.lparen :: (← cTokenizeAux fuel cs))
    else if c = ')' then do pure (CTok.rparen :: (← cTokenizeAux fuel cs))
    else if c.isDigit then
      let intPart := (c :: cs).takeWhile Char.isDigit
      let afterInt := (c :: cs).dropWhile Char.isDigit
      match afterInt with
      | '.' :: rest =>
        let fracPart := rest.takeWhile Char.isDigit
        let afterFrac := rest.dropWhile Char.isDigit
        do pure (CTok.num (decimalVal intPart fracPart) :: (← cTokenizeAux fuel afterFrac))
      | _ => do pure (CTok.num (decimalVal intPart []) :: (← cTokenizeAux fuel afterInt))
    else if c = '.' then
      let fracPart := cs.takeWhile Char.isDigit
      let afterFrac := cs.dropWhile Char.isDigit
      if fracPart.isEmpty then .error .syntaxError
      else do pure (CTok.num (decimalVal [] fracPart) :: (← cTokenizeAux fuel afterFrac))
    else .error .syntaxError

/-- Tokenize a full character list. -/
def cTokenize (cs : List Char) : Except PyErr (List CTok) :=
  cTokenizeAux (cs.length + 1) cs

/-- Abstract syntax of the arithmetic fragment, as CPython parses it. -/
inductive AExp where
  | num (q : Rat)
  | neg (a : AExp)
  | pos (a : AExp)
  | add (a b : AExp)
  | sub (a b : AExp)
  | mul (a b : AExp)
  | div (a b : AExp)
  | floordiv (a b : AExp)
  | mod (a b : AExp)
  | pow (a b : AExp)
  deriving DecidableEq, Repr

mutual

/-- Additive level: `term (('+'|'-') term)*`. -/
def parseAdd (fuel : Nat) (ts : List CTok) : Except PyErr (AExp × List CTok) :=
  match fuel with
  | 0 => .error .syntaxError
  | fuel + 1 => do
    let (a, ts1) ← parseMul fuel ts
    parseAddRest fuel a ts1

/-- Left-associated continuation of the additive level. -/
def parseAddRest (fuel : Nat) (acc : AExp) (ts : List CTok) :
    Except PyErr (AExp × List CTok) :=
  match fuel with
  | 0 => .error .syntaxError
  | fuel + 1 =>
    match ts with
    | CTok.plus :: ts1 => do
      let (b, ts2) ← parseMul fuel ts1
      parseAddRest fuel (AExp.add acc b) ts2
    | CTok.minus :: ts1 => do
      let (b, ts2) ← parseMul fuel ts1
      parseAddRest fuel (AExp.sub acc b) ts2
    | _ => .ok (acc, ts)

/-- Multiplicative level: `factor (('*'|'/'|'//'|'%') factor)*`. -/
def parseMul (fuel : Nat) (ts : List CTok) : Except PyErr (AExp × List CTok) :=
  match fuel with
  | 0 => .error .syntaxError
  | fuel + 1 => do
    let (a, ts1) ← parseUnary fuel ts
    parseMulRest fuel a ts1

/-- Left-associated continuation of the multiplicative level. -/
def parseMulRest (fuel : Nat) (acc : AExp) (ts : List CTok) :
    Except PyErr (AExp × List CTok) :=
  match fuel with
  | 0 => .error .syntaxError
  | fuel + 1 =>
    match ts with
    | CTok.star :: ts1 => do
      let (b, ts2) ← parseUnary fuel ts1
      parseMulRest fuel (AExp.mul acc b) ts2
    | CTok.slash :: ts1 => do
      let (b, ts2) ← parseUnary fuel ts1
      parseMulRest fuel (AExp.div acc b) ts2
    | CTok.dslash :: ts1 => do
      let (b, ts2) ← parseUnary fuel ts1
      parseMulRest fuel (AExp.floordiv acc b) ts2
    | CTok.percent :: ts1 => do
      let (b, ts2) ← parseUnary fuel ts1
      parseMulRest fuel (AExp.mod acc b) ts2
    | _ => .ok (acc, ts)

/-- Unary level: `('+'|'-')* power`; in Python unary minus binds looser than
`**` on its left (`-2**2` is `-(2**2)`). -/
def parseUnary (fuel : Nat) (ts : List CTok) : Except PyErr (AExp × List CTok) :=
  match fuel with
  | 0 => .error .syntaxError
  | fuel + 1 =>
    match ts with
    | CTok.minus :: ts1 => do
      let (a, ts2) ← parseUnary fuel ts1
      pure (AExp.neg a, ts2)
    | CTok.plus :: ts1 => do
      let (a, ts2) ← parseUnary fuel ts1
      pure (AExp.pos a, ts2)
    | _ => parsePow fuel ts

/-- Power level: `atom ('**' unary)?`, right associative, with the exponent at
unary level (`2**-3` parses). -/
def parsePow (fuel : Nat) (ts : List CTok) : Except PyErr (AExp × List CTok) :=
  match fuel with
  | 0 => .error .syntaxError
  | fuel + 1 => do
    let (a, ts1) ← parseAtom fuel ts
    match ts1 with
    | CTok.dstar :: ts2 => do
      let (b, ts3) ← parseUnary fuel ts2
      pure (AExp.pow a b, ts3)
    | _ => pure (a, ts1)

/-- Atom: a numeric literal or a parenthesized expression. -/
def parseAtom (fuel : Nat) (ts : List CTok) : Except PyErr (AExp × List CTok) :=
  match fuel with
  | 0 => .error .syntaxError
  | fuel + 1 =>
    match ts with
    | CTok.num q :: ts1 => .ok (AExp.num q, ts1)
    | CTok.lparen :: ts1 => do
      let (a, ts2) ← parseAdd fuel ts1
      match ts2 with
      | CTok.rparen :: ts3 => pure (a, ts3)
      | _ => .error .syntaxError
    | _ => .error .syntaxError

end

/-- Compile a token stream to an AST; the whole stream must be consumed. -/
def compileToks (ts : List CTok) : Except PyErr AExp := do
  let (a, rest) ← parseAdd (ts.length * 2 + 2) ts
  match rest with
  | [] => pure a
  | _ => .error .syntaxError

/-- Evaluate an AST over exact rationals with Python semantics: `/` is true
division, `//` is floor division, `a % b = a - b * floor(a / b)`; each of the
three raises `ZeroDivisionError` on a zero divisor; `**` needs an integer
exponent in the rational idealization and raises `ZeroDivisionError` for
`0 ** negative` as CPython does. -/
def evalAExp : AExp → Except PyErr Rat
  | .num q => .ok q
  | .neg a => do pure (-(← evalAExp a))
  | .pos a => evalAExp a
  | .add a b => do pure ((← evalAExp a) + (← evalAExp b))
  | .sub a b => do pure ((← evalAExp a) - (← evalAExp b))
  | .mul a b => do pure ((← evalAExp a) * (← evalAExp b))
  | .div a b => do
    let x ← evalAExp a
    let y ← evalAExp b
    if y = 0 then .error .zeroDivisionError else pure (x / y)
  | .floordiv a b => do
    let x ← evalAExp a
    let y ← evalAExp b
    if y = 0 then .error .zeroDivisionError else pure ((⌊x / y⌋ : Int) : Rat)
  | .mod a b => do
    let x ← evalAExp a
    let y ← evalAExp b
    if y = 0 then .error .zeroDivisionError else pure (x - y * ((⌊x / y⌋ : Int) : Rat))
  | .pow a b => do
    let x ← evalAExp a
    let y ← evalAExp b
    if y.den = 1 then
      if x = 0 && y.num < 0 then .error .zeroDivisionError
      else pure (x ^ y.num)
    else .error .nonIntPow

/-- The embedded `eval(expression)` call: compile the whole expression, then
evaluate it. -/
def pyEval (expression : String) : Except PyErr Rat := do
  evalAExp (← compileToks (← cTokenize expression.data))

/-! ## Persistence model and `ChatService` (`src/app/chat/services.py`)

The store holds chat and message rows as in `src/app/chat/models.py`.
Timestamps are carried as their ISO-format strings (the handlers only ever
call `.isoformat()` on them). -/

/-- A row of the `chats` table (`Chat` in `src/app/chat/models.py`). -/
structure ChatRec where
  id : Nat
  title : String
  user_id : String
  created_at : String
  updated_at : String
  deriving DecidableEq, Repr

/-- A row of the `messages` table (`Message` in `src/app/chat/models.py`). -/
structure MessageRec where
  id : Nat
  chat_id : Nat
  role : String
  content : String
  created_at : String
  deriving DecidableEq, Repr

/-- The persistence store visible through a SQLAlchemy session. -/
structure DBState where
  chats : List ChatRec
  messages : List MessageRec
  deriving DecidableEq, Repr

/-- `ChatService` from `src/app/chat/services.py`: a handle on the store. -/
structure ChatService where
  db : DBState
  deriving DecidableEq, Repr

/-- `ChatService.get_chat(chat_id, user_id)`: first chat row matching both
filters, or `None`. -/
def ChatService.get_chat (svc : ChatService) (chat_id : Nat) (user_id : String) :
    Option ChatRec :=
  svc.db.chats.find? (fun chat => chat.id = chat_id && chat.user_id = user_id)

/-- `ChatService.get_user_chats(user_id)`: all chat rows of the user. -/
def ChatService.get_user_chats (svc : ChatService) (user_id : String) : List ChatRec :=
  svc.db.chats.filter (fun chat => chat.user_id = user_id)

/-- Python attribute lookup `chat_service.get_chats(...)` as performed by
`_list_user_chats` (tools.py line 190) and `_search_chat_history` (tools.py
line 222).  `ChatService` in `src/app/chat/services.py` defines
`generate_chat_title`, `create_chat`, `get_chat`, `get_user_chats`,
`create_message`, `get_chat_messages` and `delete_chat` — there is no
`get_chats` anywhere in the repository, so the lookup raises
`AttributeError` before the call can happen. -/
def ChatService.get_chats (_svc : ChatService) (_user_id : String) (_limit : Int) :
    Except PyErr (List ChatRec) :=
  .error (.attributeError "ChatService" "get_chats")

/-- Python attribute lookup `chat_with_messages.messages` as performed by
`_search_chat_history` (tools.py line 225).  The `Chat` model in
`src/app/chat/models.py` declares no `messages` relationship, so the lookup
raises `AttributeError`. -/
def ChatRec.messagesAttr (_chat : ChatRec) : Except PyErr (List MessageRec) :=
  .error (.attributeError "Chat" "messages")

/-! ## `ToolExecutor` (`src/app/chat/tools.py`) -/

/-- The executor state built by `ToolExecutor.__init__`. -/
structure ToolExecutor where
  db : Option DBState
  user_id : String
  chat_service : Option ChatService
  deriving DecidableEq, Repr

/-- `ToolExecutor.__init__(db, user_id)`: `user_id or "demo-user"` falls back
on `None` or the empty string; `chat_service` is constructed only when a
persistence handle is attached. -/
def ToolExecutor.init (db : Option DBState) (user_id : Option String) : ToolExecutor where
  db := db
  user_id :=
    match user_id with
    | some u => if u = "" then "demo-user" else u
    | none => "demo-user"
  chat_service := db.map (fun d => ⟨d⟩)

/-- Handler `_get_current_time`: renders the wall-clock snapshot; the timezone
field is echoed from the input with default `"UTC"`. -/
def ToolExecutor._get_current_time (now : TimeInfo) (tool_input : ToolInput) : ExecResult :=
  catchAll do
    let timezone := tool_input.timezone.getD "UTC"
    return okResult (.timeInfo now.datetime now.date now.time now.day_of_week
      timezone now.timestamp)

/-- The allow-set checked by `_calculate` before evaluation
(tools.py line 160): digits, `+ - * / ( ) % .` and the space. -/
def allowed_chars : List Char := "0123456789+-*/()%. ".data

/-- Handler `_calculate`: validates the expression against the allow-set, then
evaluates it; its own `except ZeroDivisionError` clause produces the distinct
"Division by zero" failure and `except Exception` the generic
"Calculation error" failure. -/
def ToolExecutor._calculate (tool_input : ToolInput) : ExecResult :=
  let body : Except PyErr ExecResult := do
    let expression := tool_input.expression.getD ""
    if expression.data.all (fun c => allowed_chars.contains c) then do
      let result ← pyEval expression
      pure (okResult (.calcAnswer expression result))
    else
      pure (errResult
        "Invalid characters in expression. Only numbers and basic operators allowed.")
  match body with
  | .ok r => r
  | .error .zeroDivisionError => errResult "Division by zero"
  | .error e => errResult ("Calculation error: " ++ pyStr e)

/-- Handler `_list_user_chats`: guards on the missing persistence handle, then
calls the (nonexistent) `ChatService.get_chats` and formats the rows. -/
def ToolExecutor._list_user_chats (ex : ToolExecutor) (tool_input : ToolInput) : ExecResult :=
  catchAll do
    match ex.chat_service with
    | none => return errResult "Database not available"
    | some svc =>
      let limit := tool_input.limit.getD 10
      let chats ← svc.get_chats ex.user_id limit
      let chat_list := chats.map (fun chat =>
        ChatSummary.mk chat.id chat.title chat.created_at chat.updated_at)
      return okResult (.chatList chat_list.length chat_list)

/-- One search hit as built inside `_search_chat_history`: the content is
truncated to its first 200 characters, with `"..."` appended when the original
is longer. -/
def mkSearchHit (chat : ChatRec) (message : MessageRec) : SearchHit where
  chat_id := chat.id
  chat_title := chat.title
  message_id := message.id
  role := message.role
  content := message.content.take 200 ++ (if message.content.length > 200 then "..." else "")
  created_at := message.created_at

/-- Inner loop of `_search_chat_history` over one chat's messages: append a
hit for every case-insensitive substring match and break as soon as the
accumulated results reach the limit. -/
def searchMessages (query : String) (chat : ChatRec) (limit : Int) :
    List MessageRec → List SearchHit → List SearchHit
  | [], results => results
  | message :: rest, results =>
    if pyContains (pyLower message.content) (pyLower query) then
      let results := results ++ [mkSearchHit chat message]
      if limit ≤ (results.length : Int) then results
      else searchMessages query chat limit rest results
    else searchMessages query chat limit rest results

/-- Outer loop of `_search_chat_history` over the caller's chats: fetch each
chat with `get_chat`, walk its `messages` attribute, and break once the limit
is reached. -/
def searchChats (svc : ChatService) (user_id query : String) (limit : Int) :
    List ChatRec → List SearchHit → Except PyErr (List SearchHit)
  | [], results => pure results
  | chat :: rest, results => do
    let chat_with_messages := svc.get_chat chat.id user_id
    let results ← match chat_with_messages with
      | some cw => do
        let msgs ← cw.messagesAttr
        pure (searchMessages query chat limit msgs results)
      | none => pure results
    if limit ≤ (results.length : Int) then pure results
    else searchChats svc user_id query limit rest results

/-- Handler `_search_chat_history`: guards on the missing persistence handle,
fetches up to 50 chats through the (nonexistent) `ChatService.get_chats`, and
scans their messages. -/
def ToolExecutor._search_chat_history (ex : ToolExecutor) (tool_input : ToolInput) :
    ExecResult :=
  catchAll do
    match ex.chat_service with
    | none => return errResult "Database not available"
    | some svc =>
      let query := tool_input.query.getD ""
      let limit := tool_input.limit.getD 5
      let chats ← svc.get_chats ex.user_id 50
      let results ← searchChats svc ex.user_id query limit chats []
      return okResult (.searchOut query results.length results)

/-- `ToolExecutor.execute(tool_name, tool_input)`: dispatch on the tool name;
an unrecognized name returns the unknown-tool failure dict.  The enclosing
`try`/`except` of the Python code never fires because every handler already
catches its own exceptions, which the model reflects by the handlers being
total functions into `ExecResult`. -/
def ToolExecutor.execute (now : TimeInfo) (ex : ToolExecutor)
    (tool_name : String) (tool_input : ToolInput) : ExecResult :=
  if tool_name = "get_current_time" then ToolExecutor._get_current_time now tool_input
  else if tool_name = "calculate" then ToolExecutor._calculate tool_input
  else if tool_name = "list_user_chats" then ex._list_user_chats tool_input
  else if tool_name = "search_chat_history" then ex._search_chat_history tool_input
  else errResult ("Unknown tool: " ++ tool_name)

/-! ## Tool registry and enablement (`TOOL_DEFINITIONS`, `get_enabled_tools`) -/

/-- One property of a tool input schema. -/
structure ToolProperty where
  name : String
  type : String
  description : String
  deriving DecidableEq, Repr

/-- The `input_schema` object of a tool definition. -/
structure InputSchema where
  properties : List ToolProperty
  required : List String
  deriving DecidableEq, Repr

/-- A tool definition record as registered in `TOOL_DEFINITIONS`. -/
structure ToolDefinition where
  name : String
  description : String
  input_schema : InputSchema
  deriving DecidableEq, Repr

/-- The static registry `TOOL_DEFINITIONS` of `src/app/chat/tools.py`, in
source order. -/
def TOOL_DEFINITIONS : List ToolDefinition := [
  { name := "get_current_time"
    description := "Get the current date and time. Useful for time-sensitive queries, scheduling, or when users ask about \x27today\x27, \x27now\x27, etc."
    input_schema :=
      { properties := [⟨"timezone", "string",
          "Timezone (e.g., \x27America/New_York\x27). Defaults to UTC."⟩]
        required := [] } },
  { name := "calculate"
    description := "Perform mathematical calculations. Supports basic arithmetic, percentages, and simple expressions. Use this when users ask for calculations, conversions, or math operations."
    input_schema :=
      { properties := [⟨"expression", "string",
          "Mathematical expression to evaluate (e.g., \x2710 * 5 + 3\x27)"⟩]
        required := ["expression"] } },
  { name := "list_user_chats"
    description := "Retrieve a list of the user\x27s previous chat conversations. Useful when users ask about their history, past conversations, or want to reference previous discussions."
    input_schema :=
      { properties := [⟨"limit", "number",
          "Maximum number of chats to return (default: 10)"⟩]
        required := [] } },
  { name := "search_chat_history"
    description := "Search through the user\x27s chat history for specific keywords or topics. Returns relevant messages from past conversations."
    input_schema :=
      { properties := [⟨"query", "string", "Search query to find in chat history"⟩,
          ⟨"limit", "number", "Maximum number of results (default: 5)"⟩]
        required := ["query"] } }]

/-- The configuration fields of `Settings` (`src/app/config.py`) that govern
tool enablement, with their declared defaults. -/
structure Settings where
  ENABLE_TOOLS : Bool := true
  ENABLED_TOOLS : Option String := none
  deriving DecidableEq, Repr

/-- The allow-list names parsed from `ENABLED_TOOLS`:
`[name.strip() for name in enabled_tools_str.split(",")]`. -/
def allowNames (enabled_tools_str : String) : List String :=
  (enabled_tools_str.splitOn ",").map pyStrip

/-- `get_enabled_tools()` from `src/app/chat/tools.py` lines 259-277: empty
when tooling is globally disabled; otherwise filtered by the comma-separated
allow-list when that string is truthy (present and nonempty); otherwise the
whole registry. -/
def get_enabled_tools (settings : Settings) : List ToolDefinition :=
  if !settings.ENABLE_TOOLS then []
  else
    match settings.ENABLED_TOOLS with
    | some enabled_tools_str =>
      if enabled_tools_str = "" then TOOL_DEFINITIONS
      else
        let enabled_names := allowNames enabled_tools_str
        TOOL_DEFINITIONS.filter (fun tool => enabled_names.contains tool.name)
    | none => TOOL_DEFINITIONS

/-- `is_tools_enabled()` from `src/app/chat/tools.py`. -/
def is_tools_enabled (settings : Settings) : Bool :=
  settings.ENABLE_TOOLS

/-! ## The tool-calling conversation loop (`src/app/chat/router.py` 91-170)

The inference provider (`bedrock_runtime.converse`) is an oracle mapping the
current conversation either to a response or to a raised transport error
(`BotoCoreError`/`ClientError`).  The loop body is embedded one `while`
iteration per recursion step, with the remaining-iteration count decreasing
from `max_iterations`. -/

/-- Stop reason of a provider response. -/
inductive StopReason where
  | tool_use
  | end_turn
  | other (reason : String)
  deriving DecidableEq, Repr

/-- One content block of a conversation turn. -/
inductive Block where
  | text (s : String)
  | toolUse (toolUseId name : String) (input : ToolInput)
  | toolResult (toolUseId : String) (content : ExecResult)
  deriving DecidableEq, Repr

/-- One conversation turn (`role` plus content blocks). -/
structure Msg where
  role : String
  content : List Block
  deriving DecidableEq, Repr

/-- A provider response: stop reason and the assistant turn. -/
structure ProviderResponse where
  stopReason : StopReason
  message : Msg
  deriving DecidableEq, Repr

/-- A transport or provider-side error (`BotoCoreError`/`ClientError`),
carrying its `str(e)` detail. -/
structure ProviderErr where
  detail : String
  deriving DecidableEq, Repr

/-- Concatenate the `text` fields of a turn's content blocks, as the
`end_turn` and fallback branches do. -/
def extractText (blocks : List Block) : String :=
  blocks.foldl (fun acc b => match b with | .text s => acc ++ s | _ => acc) ""

/-- The tool-results batch built in the `tool_use` branch: one
`toolResult` block per `toolUse` block, in emission order, each carrying the
executor's result for that request. -/
def buildToolResults (exec : String → ToolInput → ExecResult) (blocks : List Block) :
    List Block :=
  blocks.filterMap fun b =>
    match b with
    | .toolUse toolUseId name input => some (.toolResult toolUseId (exec name input))
    | _ => none

/-- The fixed message returned when the iteration bound is exhausted. -/
def maxIterationsMsg : String := "I\x27ve reached the maximum number of tool iterations."

/-- Fallback text when an `end_turn` response has no text blocks. -/
def noResponseMsg : String := "I couldn\x27t generate a response."

/-- Fallback text for unexpected stop reasons with no text blocks. -/
def limitMsg : String := "I reached my response limit."

/-- The user-facing text produced by the `except (BotoCoreError, ClientError)`
clause. -/
def toolCallingErrText (e : ProviderErr) : String :=
  "I encountered an error with tool calling: " ++ e.detail

/-- Outcome of the loop: the returned text, the number of provider calls made,
and the conversation as accumulated. -/
structure LoopResult where
  text : String
  calls : Nat
  messages : List Msg
  deriving DecidableEq, Repr

/-- `max_iterations = 5` (router.py line 92). -/
def max_iterations : Nat := 5

/-- The `while iteration < max_iterations` loop of `handle_tool_calling`,
parameterized by the remaining iteration budget.  A raised provider error
propagates out of the loop to the enclosing `except` clause, which returns the
error text at once. -/
def toolLoopAux (provider : List Msg → Except ProviderErr ProviderResponse)
    (exec : String → ToolInput → ExecResult) :
    Nat → List Msg → Nat → LoopResult
  | 0, messages, calls => ⟨maxIterationsMsg, calls, messages⟩
  | rem + 1, messages, calls =>
    match provider messages with
    | .error e => ⟨toolCallingErrText e, calls + 1, messages⟩
    | .ok response =>
      let messages1 := messages ++ [response.message]
      match response.stopReason with
      | .tool_use =>
        let tool_results := buildToolResults exec response.message.content
        toolLoopAux provider exec rem (messages1 ++ [⟨"user", tool_results⟩]) (calls + 1)
      | .end_turn =>
        ⟨pyOr (extractText response.message.content) noResponseMsg, calls + 1, messages1⟩
      | .other _ =>
        ⟨pyOr (extractText response.message.content) limitMsg, calls + 1, messages1⟩

/-- The tool-calling path of `handle_tool_calling`: start from the single user
turn and run at most `max_iterations` provider round-trips. -/
def handle_tool_calling (provider : List Msg → Except ProviderErr ProviderResponse)
    (exec : String → ToolInput → ExecResult) (message : String) : LoopResult :=
  toolLoopAux provider exec max_iterations [⟨"user", [Block.text message]⟩] 0

/-! ## The markdown-to-speech sanitizer (`src/app/tts/router.py` 20-68)

`strip_markdown` is a fixed pipeline of `re.sub` substitutions.  Each
substitution is embedded as a left-to-right scan over the original character
list: at each position the pattern either matches (deterministically — every
pattern here has a unique leftmost-shortest match once its anchor fires, as
the character classes cannot backtrack into their closing delimiters) and the
scan emits the replacement and resumes after the match, or the scan emits the
character and moves one position on.  `MULTILINE` anchors are tracked by a
line-start flag computed from the previous character of the original string,
which each match hands to the scanner for the position where it resumes. -/

/-- One `re.sub(pattern, repl, text)` pass.  `step atLS cs` attempts a match at
the head of `cs` given the line-start flag `atLS`; on success it returns the
replacement to emit, the rest of the input after the match, and the line-start
flag at the resume position.  Every matcher consumes at least one character,
so a fuel of `length + 1` never runs out. -/
def scanSub (step : Bool → List Char → Option (List Char × List Char × Bool)) :
    Nat → Bool → List Char → List Char
  | 0, _, cs => cs
  | _ + 1, _, [] => []
  | fuel + 1, atLS, c :: cs =>
    match step atLS (c :: cs) with
    | some (emit, rest, atLS2) => emit ++ scanSub step fuel atLS2 rest
    | none => c :: scanSub step fuel (c = '\n') cs

/-- Run one substitution pass over a whole character list (position 0 is a
line start). -/
def runSub (step : Bool → List Char → Option (List Char × List Char × Bool))
    (cs : List Char) : List Char :=
  scanSub step (cs.length + 1) true cs

/-- Rest of the input after the first occurrence of delimiter `d`. -/
def findAfterDelim (d : List Char) : List Char → Option (List Char)
  | [] => none
  | c :: cs =>
    if d.isPrefixOf (c :: cs) then some ((c :: cs).drop d.length)
    else findAfterDelim d cs

/-- Matcher for fenced code blocks: three backticks, a shortest (possibly
empty, newline-spanning) body, three backticks; replaced by nothing. -/
def fenceStep (_ : Bool) (cs : List Char) : Option (List Char × List Char × Bool) :=
  if ("```".data).isPrefixOf cs then
    match findAfterDelim "```".data (cs.drop 3) with
    | some rest => some ([], rest, false)
    | none => none
  else none

/-- Matcher for inline code spans: a backtick, one or more non-backticks, a
backtick; replaced by nothing. -/
def inlineCodeStep (_ : Bool) (cs : List Char) : Option (List Char × List Char × Bool) :=
  match cs with
  | '`' :: rest =>
    let mid := rest.takeWhile (fun c => !(c = '`'))
    let after := rest.dropWhile (fun c => !(c = '`'))
    match after with
    | '`' :: rest2 => if mid.isEmpty then none else some ([], rest2, false)
    | _ => none
  | _ => none

/-- Matcher for heading markers at a line start: one to six hash signs
followed by whitespace (the greedy whitespace may span newlines); replaced by
nothing.  Seven or more hash signs do not match. -/
def headerStep (atLS : Bool) (cs : List Char) : Option (List Char × List Char × Bool) :=
  if !atLS then none
  else
    let hashes := cs.takeWhile (fun c => c = '#')
    let after := cs.dropWhile (fun c => c = '#')
    if hashes.length = 0 || 6 < hashes.length then none
    else
      let ws := after.takeWhile pySpace
      let rest := after.dropWhile pySpace
      if ws.isEmpty then none
      else some ([], rest, ws.getLast? == some '\n')

/-- Shortest-first search for the closing emphasis delimiter: walk the
content, which must be nonempty and newline-free, until the delimiter
reappears. -/
def emphFind (d : List Char) : Nat → List Char → List Char →
    Option (List Char × List Char)
  | 0, _, _ => none
  | fuel + 1, acc, cs =>
    if d.isPrefixOf cs && !acc.isEmpty then some (acc.reverse, cs.drop d.length)
    else
      match cs with
      | [] => none
      | c :: rest => if c = '\n' then none else emphFind d fuel (c :: acc) rest

/-- Matcher for one emphasis variant (delimiter `d` among `***`, `**`, `*`,
`___`, `__`, `_`): delimiter, shortest nonempty newline-free content,
delimiter; replaced by the content. -/
def emphStep (d : List Char) (_ : Bool) (cs : List Char) :
    Option (List Char × List Char × Bool) :=
  if d.isPrefixOf cs then
    match emphFind d (cs.length + 1) [] (cs.drop d.length) with
    | some (content, rest) => some (content, rest, false)
    | none => none
  else none

/-- Matcher for link syntax: bracketed nonempty text (no closing bracket
inside) then a parenthesized nonempty target; replaced by the text. -/
def linkStep (_ : Bool) (cs : List Char) : Option (List Char × List Char × Bool) :=
  match cs with
  | '[' :: rest =>
    let txt := rest.takeWhile (fun c => !(c = ']'))
    let after := rest.dropWhile (fun c => !(c = ']'))
    if txt.isEmpty then none
    else
      match after with
      | ']' :: '(' :: rest2 =>
        let url := rest2.takeWhile (fun c => !(c = ')'))
        let after2 := rest2.dropWhile (fun c => !(c = ')'))
        if url.isEmpty then none
        else
          match after2 with
          | ')' :: rest3 => some (txt, rest3, false)
          | _ => none
      | _ => none
  | _ => none

/-- Matcher for image syntax: an exclamation mark, bracketed possibly-empty
alt text, a parenthesized nonempty target; replaced by the alt text. -/
def imageStep (_ : Bool) (cs : List Char) : Option (List Char × List Char × Bool) :=
  match cs with
  | '!' :: '[' :: rest =>
    let txt := rest.takeWhile (fun c => !(c = ']'))
    let after := rest.dropWhile (fun c => !(c = ']'))
    match after with
    | ']' :: '(' :: rest2 =>
      let url := rest2.takeWhile (fun c => !(c = ')'))
      let after2 := rest2.dropWhile (fun c => !(c = ')'))
      if url.isEmpty then none
      else
        match after2 with
        | ')' :: rest3 => some (txt, rest3, false)
        | _ => none
    | _ => none
  | _ => none

/-- Matcher for blockquote markers at a line start: a greater-than sign then
greedy whitespace; replaced by nothing. -/
def blockquoteStep (atLS : Bool) (cs : List Char) : Option (List Char × List Char × Bool) :=
  if !atLS then none
  else
    match cs with
    | '>' :: rest =>
      let ws := rest.takeWhile pySpace
      if ws.isEmpty then none
      else some ([], rest.dropWhile pySpace, ws.getLast? == some '\n')
    | _ => none

/-- Matcher for horizontal-rule lines at a line start: a run of three or more
dashes, underscores or asterisks filling the whole line; replaced by nothing
(the line's newline remains). -/
def hrStep (atLS : Bool) (cs : List Char) : Option (List Char × List Char × Bool) :=
  if !atLS then none
  else
    match cs with
    | c :: _ =>
      if c = '-' || c = '_' || c = '*' then
        let run := cs.takeWhile (fun x => x = c)
        let rest := cs.dropWhile (fun x => x = c)
        if 3 ≤ run.length && (rest.isEmpty || rest.head? == some '\n') then
          some ([], rest, false)
        else none
      else none
    | [] => none

/-- Matcher for bulleted list markers at a line start: greedy possibly-empty
whitespace, a dash, asterisk or plus, then greedy nonempty whitespace;
replaced by nothing. -/
def bulletStep (atLS : Bool) (cs : List Char) : Option (List Char × List Char × Bool) :=
  if !atLS then none
  else
    let after1 := cs.dropWhile pySpace
    match after1 with
    | m :: rest =>
      if m = '-' || m = '*' || m = '+' then
        let ws2 := rest.takeWhile pySpace
        if ws2.isEmpty then none
        else some ([], rest.dropWhile pySpace, ws2.getLast? == some '\n')
      else none
    | [] => none

/-- Matcher for numbered list markers at a line start: greedy possibly-empty
whitespace, one or more digits, a dot, then greedy nonempty whitespace;
replaced by nothing. -/
def numberedStep (atLS : Bool) (cs : List Char) : Option (List Char × List Char × Bool) :=
  if !atLS then none
  else
    let after1 := cs.dropWhile pySpace
    let digits := after1.takeWhile Char.isDigit
    let after2 := after1.dropWhile Char.isDigit
    if digits.isEmpty then none
    else
      match after2 with
      | '.' :: rest =>
        let ws2 := rest.takeWhile pySpace
        if ws2.isEmpty then none
        else some ([], rest.dropWhile pySpace, ws2.getLast? == some '\n')
      | _ => none

/-- Matcher for HTML tags: a less-than sign, one or more non-greater-than
characters, a greater-than sign; replaced by nothing. -/
def htmlStep (_ : Bool) (cs : List Char) : Option (List Char × List Char × Bool) :=
  match cs with
  | '<' :: rest =>
    let mid := rest.takeWhile (fun c => !(c = '>'))
    let after := rest.dropWhile (fun c => !(c = '>'))
    if mid.isEmpty then none
    else
      match after with
      | '>' :: rest2 => some ([], rest2, false)
      | _ => none
  | _ => none

/-- Matcher for runs of three or more newlines; replaced by exactly two. -/
def collapseStep (_ : Bool) (cs : List Char) : Option (List Char × List Char × Bool) :=
  match cs with
  | '\n' :: _ =>
    let run := cs.takeWhile (fun c => c = '\n')
    if 3 ≤ run.length then some (['\n', '\n'], cs.dropWhile (fun c => c = '\n'), true)
    else none
  | _ => none

/-- `strip_markdown(text)`: the seventeen substitution passes in source order,
then the final strip of leading and trailing whitespace. -/
def strip_markdown (text : String) : String :=
  let t := text.data
  let t := runSub fenceStep t
  let t := runSub inlineCodeStep t
  let t := runSub headerStep t
  let t := runSub (emphStep "***".data) t
  let t := runSub (emphStep "**".data) t
  let t := runSub (emphStep "*".data) t
  let t := runSub (emphStep "___".data) t
  let t := runSub (emphStep "__".data) t
  let t := runSub (emphStep "_".data) t
  let t := runSub linkStep t
  let t := runSub imageStep t
  let t := runSub blockquoteStep t
  let t := runSub hrStep t
  let t := runSub bulletStep t
  let t := runSub numberedStep t
  let t := runSub htmlStep t
  let t := runSub collapseStep t
  pyStrip ⟨t⟩

/-- The tool-invocation requests of a provider turn, in emission order:
the (correlation id, tool name, input) of each `toolUse` content block. -/
def toolUseRequests (blocks : List Block) : List (String × String × ToolInput) :=
  blocks.filterMap fun b =>
    match b with
    | .toolUse toolUseId name input => some (toolUseId, name, input)
    | _ => none

/-! ## Concrete fixtures used by witnesses and counterexample evaluations -/

/-- A fixed wall-clock snapshot. -/
def demoNow : TimeInfo :=
  ⟨"2024-01-01T00:00:00", "2024-01-01", "00:00:00", "Monday", 1704067200⟩

/-- A store holding one chat of the demo user with one message containing
the word Python. -/
def demoDB : DBState :=
  ⟨[⟨1, "Python talk", "demo-user", "2024-01-01T00:00:00", "2024-01-01T00:00:00"⟩],
   [⟨1, 1, "user", "I love Python tutorials", "2024-01-01T00:00:00"⟩]⟩

/-- A provider oracle that answers every conversation with a `tool_use`
response carrying one calculate request. -/
def alwaysToolUse : List Msg → Except ProviderErr ProviderResponse := fun _ =>
  .ok ⟨.tool_use, ⟨"assistant", [.toolUse "id1" "calculate" { expression := some "1+1" }]⟩⟩

/-- A provider oracle that raises a transport error on every call. -/
def alwaysBoom : List Msg → Except ProviderErr ProviderResponse := fun _ =>
  .error ⟨"boom"⟩

/-- An executor oracle for loop witnesses: the real executor without a
persistence handle. -/
def demoExec : String → ToolInput → ExecResult := fun name input =>
  ToolExecutor.execute demoNow (ToolExecutor.init none none) name input

/-- A concrete assistant turn with two tool requests, for the batching
witness. -/
def twoReqMsg : Msg :=
  ⟨"assistant", [.text "calling", .toolUse "idA" "calculate" { expression := some "2*3" },
    .toolUse "idB" "frobnicate" {}]⟩

/-- A provider oracle that answers once with the two-request turn. -/
def twoReqProvider : List Msg → Except ProviderErr ProviderResponse := fun _ =>
  .ok ⟨.tool_use, twoReqMsg⟩

/-! ## Theorems for the frozen claims

The Batteries rational-number operations are `@[irreducible]` by default;
the concrete evaluations below reduce them, so they are made semireducible
locally for this section. -/

section ClaimTheorems

attribute [local semireducible] Rat.mul Rat.add Rat.sub Rat.inv

/-- C3: the claim asserts `stripMarkup` is idempotent for every input, but the
list-marker substitution strips only one marker level per run: on the input
`"1. 2. hi"` one application yields `"2. hi"` while a second application
yields `"hi"`, so applying the sanitizer twice differs from applying it
once. -/
theorem C3_strip_markdown_not_idempotent :
    strip_markdown "1. 2. hi" = "2. hi" ∧
    strip_markdown (strip_markdown "1. 2. hi") = "hi" ∧
    strip_markdown (strip_markdown "1. 2. hi") ≠ strip_markdown "1. 2. hi" := by
  refine ⟨by decide, by decide, by decide⟩

/-- C6: the calculate tool evaluates `"10 * 5 + 3"` to a success result with
answer 53, and `"1/0"` to the distinct explicit division-by-zero failure
rather than the generic calculation-error failure. -/
theorem C6_calculate_examples :
    ToolExecutor._calculate { expression := some "10 * 5 + 3" } =
      okResult (.calcAnswer "10 * 5 + 3" 53) ∧
    ToolExecutor._calculate { expression := some "1/0" } = errResult "Division by zero" ∧
    ∀ s : String,
      ToolExecutor._calculate { expression := some "1/0" } ≠
        errResult ("Calculation error: " ++ s) := by
  refine ⟨by decide, by decide, ?_⟩
  intro s h
  have h2 : some "Division by zero" = some ("Calculation error: " ++ s) := by
    have h1 : ExecResult.error (ToolExecutor._calculate { expression := some "1/0" }) =
        ExecResult.error (errResult ("Calculation error: " ++ s)) := congrArg _ h
    have hdz : ToolExecutor._calculate { expression := some "1/0" } =
        errResult "Division by zero" := by decide
    rw [hdz] at h1
    exact h1
  have h3 : "Division by zero" = "Calculation error: " ++ s := Option.some.injEq .. ▸ h2
  have h4 : ("Division by zero" : String).data = "Calculation error: ".data ++ s.data := by
    rw [h3]
    rfl
  have h5 : ("Division by zero" : String).data.take 19 = "Calculation error: ".data ++ [] := by
    rw [h4]
    rw [List.take_append_of_le_length (by decide)]
    simp
  exact absurd h5 (by decide)

/-- C10: with no persistence handle attached (`db is None`), both
persistence-backed tools return the fixed "Database not available" failure
result for every input and every constructor argument, without raising. -/
theorem C10_no_db_tools_fail (now : TimeInfo) (user_id : Option String)
    (tool_input : ToolInput) :
    ToolExecutor.execute now (ToolExecutor.init none user_id) "list_user_chats" tool_input =
      errResult "Database not available" ∧
    ToolExecutor.execute now (ToolExecutor.init none user_id) "search_chat_history" tool_input =
      errResult "Database not available" := by
  constructor <;> rfl

/-- C1 (code-bug evidence): with a persistence handle attached, the
search-history tool never returns a success result for any store contents,
query or limit: its first persistence call is `chat_service.get_chats`, a
method `ChatService` does not define, so the handler always catches an
`AttributeError` and returns a failure result — the specified scan,
truncation and limit behavior is unreachable. -/
theorem C1_search_history_never_succeeds (now : TimeInfo) (db : DBState)
    (user_id : Option String) (tool_input : ToolInput) :
    ToolExecutor.execute now (ToolExecutor.init (some db) user_id)
        "search_chat_history" tool_input =
      errResult "ChatService object has no attribute get_chats" := by
  rfl

/-- C4: the executor's dispatch is total and safe: every tool name outside the
fixed handler set yields the unknown-tool failure result (no exception
escapes — the embedded `execute` is a total function into result dicts), and
the handler-level catch converts every raised exception into a failure
result. -/
theorem C4_execute_unknown_tool_safe :
    (∀ (now : TimeInfo) (ex : ToolExecutor) (tool_name : String) (tool_input : ToolInput),
      tool_name ∉ (["get_current_time", "calculate", "list_user_chats",
        "search_chat_history"] : List String) →
      ToolExecutor.execute now ex tool_name tool_input =
        errResult ("Unknown tool: " ++ tool_name)) ∧
    (∀ e : PyErr, catchAll (.error e) = errResult (pyStr e)) := by
  constructor
  · intro now ex tool_name tool_input hn
    have h1 : ¬ tool_name = "get_current_time" := fun h => hn (by simp [h])
    have h2 : ¬ tool_name = "calculate" := fun h => hn (by simp [h])
    have h3 : ¬ tool_name = "list_user_chats" := fun h => hn (by simp [h])
    have h4 : ¬ tool_name = "search_chat_history" := fun h => hn (by simp [h])
    simp [ToolExecutor.execute, h1, h2, h3, h4]
  · intro e
    rfl

/-- Witness for C4 at the concrete unknown name `frobnicate` and the concrete
zero-division exception. -/
theorem C4_witness :
    ToolExecutor.execute demoNow (ToolExecutor.init none none) "frobnicate" {} =
      errResult ("Unknown tool: " ++ "frobnicate") ∧
    catchAll (.error .zeroDivisionError) = errResult (pyStr .zeroDivisionError) :=
  ⟨C4_execute_unknown_tool_safe.1 demoNow (ToolExecutor.init none none) "frobnicate" {}
      (by decide),
    C4_execute_unknown_tool_safe.2 .zeroDivisionError⟩

/-- C5: any expression containing a character outside the allow-set is
rejected with the fixed invalid-characters failure before evaluation — the
result is this failure dict for every such expression, whatever the evaluator
would do with it. -/
theorem C5_calculate_rejects_disallowed (tool_input : ToolInput) (expr : String)
    (c : Char) (hex : tool_input.expression = some expr)
    (hc : c ∈ expr.data) (hno : c ∉ allowed_chars) :
    ToolExecutor._calculate tool_input =
      errResult
        "Invalid characters in expression. Only numbers and basic operators allowed." := by
  have hall : expr.data.all (fun c => allowed_chars.contains c) = false := by
    rw [List.all_eq_false]
    refine ⟨c, hc, ?_⟩
    simpa using hno
  simp only [ToolExecutor._calculate, hex, Option.getD_some, hall, Bool.false_eq_true,
    if_false]
  rfl

/-- Witness for C5 at the concrete rejected expression `"import os"`. -/
theorem C5_witness :
    ToolExecutor._calculate { expression := some "import os" } =
      errResult
        "Invalid characters in expression. Only numbers and basic operators allowed." :=
  C5_calculate_rejects_disallowed { expression := some "import os" } "import os" 'i'
    rfl (by decide) (by decide)

/-- C7: `get_enabled_tools` is a pure function of registry and configuration:
globally disabled tooling yields the empty list whatever the allow-list; a
truthy allow-list yields exactly the registered definitions whose name is in
the allow-list, as a sublist of the registry (registry order); otherwise the
whole registry is returned. -/
theorem C7_get_enabled_tools_spec :
    (∀ settings : Settings, settings.ENABLE_TOOLS = false →
      get_enabled_tools settings = []) ∧
    (∀ (settings : Settings) (s : String), settings.ENABLE_TOOLS = true →
      settings.ENABLED_TOOLS = some s → ¬ s = "" →
      List.Sublist (get_enabled_tools settings) TOOL_DEFINITIONS ∧
      ∀ t : ToolDefinition, t ∈ get_enabled_tools settings ↔
        t ∈ TOOL_DEFINITIONS ∧ t.name ∈ allowNames s) ∧
    (∀ settings : Settings, settings.ENABLE_TOOLS = true →
      (settings.ENABLED_TOOLS = none ∨ settings.ENABLED_TOOLS = some "") →
      get_enabled_tools settings = TOOL_DEFINITIONS) := by
  refine ⟨?_, ?_, ?_⟩
  · intro settings h
    simp [get_enabled_tools, h]
  · intro settings s h1 h2 h3
    have hfil : get_enabled_tools settings =
        TOOL_DEFINITIONS.filter (fun tool => (allowNames s).contains tool.name) := by
      simp [get_enabled_tools, h1, h2, h3]
    rw [hfil]
    refine ⟨List.filter_sublist _, fun t => ?_⟩
    simp [List.mem_filter]
  · intro settings h1 h2
    rcases h2 with h2 | h2 <;> simp [get_enabled_tools, h1, h2]

/-- Witness for C7 at three concrete configurations: disabled with an
allow-list, enabled with a two-name allow-list, enabled with no allow-list. -/
theorem C7_witness :
    get_enabled_tools { ENABLE_TOOLS := false, ENABLED_TOOLS := some "calculate" } = [] ∧
    (List.Sublist
        (get_enabled_tools
          { ENABLE_TOOLS := true, ENABLED_TOOLS := some "calculate, get_current_time" })
        TOOL_DEFINITIONS ∧
      ∀ t : ToolDefinition,
        t ∈ get_enabled_tools
            { ENABLE_TOOLS := true, ENABLED_TOOLS := some "calculate, get_current_time" } ↔
          t ∈ TOOL_DEFINITIONS ∧ t.name ∈ allowNames "calculate, get_current_time") ∧
    get_enabled_tools { ENABLE_TOOLS := true, ENABLED_TOOLS := none } = TOOL_DEFINITIONS :=
  ⟨C7_get_enabled_tools_spec.1 _ rfl,
    C7_get_enabled_tools_spec.2.1 _ "calculate, get_current_time" rfl rfl (by decide),
    C7_get_enabled_tools_spec.2.2 _ rfl (Or.inl rfl)⟩

/-- Helper: when the provider answers every conversation with a `tool_use`
response, the loop spends its whole remaining budget, one call per iteration,
and ends with the fixed maximum-iterations message. -/
theorem toolLoopAux_of_always_tool_use
    (provider : List Msg → Except ProviderErr ProviderResponse)
    (exec : String → ToolInput → ExecResult)
    (h : ∀ msgs, ∃ r, provider msgs = .ok r ∧ r.stopReason = .tool_use) :
    ∀ (rem : Nat) (messages : List Msg) (calls : Nat),
      (toolLoopAux provider exec rem messages calls).text = maxIterationsMsg ∧
      (toolLoopAux provider exec rem messages calls).calls = calls + rem := by
  intro rem
  induction rem with
  | zero => intro messages calls; exact ⟨rfl, rfl⟩
  | succ n ih =>
    intro messages calls
    obtain ⟨r, hp, hs⟩ := h messages
    have step := ih (messages ++
      [r.message, ⟨"user", buildToolResults exec r.message.content⟩]) (calls + 1)
    constructor
    · simpa [toolLoopAux, hp, hs] using step.1
    · have h2 := step.2
      simp only [toolLoopAux, hp, hs, List.append_assoc, List.cons_append,
        List.nil_append] at h2 ⊢
      rw [h2]
      omega

/-- C2: when every provider round-trip returns stop reason `tool_use`, the
conversation loop makes exactly 5 provider calls — never a 6th — and returns
the fixed maximum-iterations message. -/
theorem C2_loop_exactly_five_calls
    (provider : List Msg → Except ProviderErr ProviderResponse)
    (exec : String → ToolInput → ExecResult) (message : String)
    (h : ∀ msgs, ∃ r, provider msgs = .ok r ∧ r.stopReason = .tool_use) :
    (handle_tool_calling provider exec message).calls = 5 ∧
    (handle_tool_calling provider exec message).text = maxIterationsMsg := by
  have hrun := toolLoopAux_of_always_tool_use provider exec h max_iterations
    [⟨"user", [Block.text message]⟩] 0
  exact ⟨hrun.2, hrun.1⟩

/-- Witness for C2: the concrete always-`tool_use` provider with the real
executor makes exactly 5 calls. -/
theorem C2_witness :
    (handle_tool_calling alwaysToolUse demoExec "hi").calls = 5 ∧
    (handle_tool_calling alwaysToolUse demoExec "hi").text = maxIterationsMsg :=
  C2_loop_exactly_five_calls alwaysToolUse demoExec "hi" (fun _ => ⟨_, rfl, rfl⟩)

/-- Helper: the tool-results batch is exactly one `toolResult` per `toolUse`
request, in emission order, each carrying the executor's result for the
request with the request's correlation id. -/
theorem buildToolResults_eq_map (exec : String → ToolInput → ExecResult)
    (blocks : List Block) :
    buildToolResults exec blocks =
      (toolUseRequests blocks).map
        (fun r => Block.toolResult r.1 (exec r.2.1 r.2.2)) := by
  induction blocks with
  | nil => rfl
  | cons b bs ih =>
    cases b <;> simp [buildToolResults, toolUseRequests, List.filterMap_cons] at ih ⊢ <;>
      exact ih

/-- C8: in every `tool_use` round, the loop appends the assistant's
tool-request turn and then a single user turn holding exactly one ToolResult
per ToolInvocationRequest, in the order the provider emitted the requests,
before the next provider call. -/
theorem C8_tool_round_batched_in_order
    (provider : List Msg → Except ProviderErr ProviderResponse)
    (exec : String → ToolInput → ExecResult) (rem : Nat)
    (messages : List Msg) (calls : Nat) (response : ProviderResponse)
    (hp : provider messages = .ok response) (hs : response.stopReason = .tool_use) :
    toolLoopAux provider exec (rem + 1) messages calls =
      toolLoopAux provider exec rem
        (messages ++ [response.message,
          ⟨"user", buildToolResults exec response.message.content⟩]) (calls + 1) ∧
    buildToolResults exec response.message.content =
      (toolUseRequests response.message.content).map
        (fun r => Block.toolResult r.1 (exec r.2.1 r.2.2)) ∧
    (buildToolResults exec response.message.content).length =
      (toolUseRequests response.message.content).length := by
  refine ⟨?_, buildToolResults_eq_map exec response.message.content, ?_⟩
  · simp [toolLoopAux, hp, hs]
  · rw [buildToolResults_eq_map]
    exact List.length_map _ _

/-- Witness for C8 at a concrete round with two tool requests. -/
theorem C8_witness :
    toolLoopAux twoReqProvider demoExec 1 [] 0 =
      toolLoopAux twoReqProvider demoExec 0
        ([] ++ [twoReqMsg, ⟨"user", buildToolResults demoExec twoReqMsg.content⟩]) 1 ∧
    buildToolResults demoExec twoReqMsg.content =
      (toolUseRequests twoReqMsg.content).map
        (fun r => Block.toolResult r.1 (demoExec r.2.1 r.2.2)) ∧
    (buildToolResults demoExec twoReqMsg.content).length =
      (toolUseRequests twoReqMsg.content).length :=
  C8_tool_round_batched_in_order twoReqProvider demoExec 0 [] 0 ⟨.tool_use, twoReqMsg⟩
    rfl rfl

/-- C9: a transport or provider-side error raised during any round-trip
terminates the loop at once — one call is charged for the failed round-trip,
no retry and no further iteration happens whatever budget remains — and the
returned text is the fixed error sentence carrying the error detail. -/
theorem C9_provider_error_fail_fast
    (provider : List Msg → Except ProviderErr ProviderResponse)
    (exec : String → ToolInput → ExecResult) (rem : Nat) (messages : List Msg)
    (calls : Nat) (e : ProviderErr) (hp : provider messages = .error e) :
    toolLoopAux provider exec (rem + 1) messages calls =
      ⟨"I encountered an error with tool calling: " ++ e.detail, calls + 1, messages⟩ := by
  simp [toolLoopAux, hp, toolCallingErrText]

/-- Witness for C9: a provider raising on the first call ends the loop after
exactly one call with the error text. -/
theorem C9_witness :
    toolLoopAux alwaysBoom demoExec max_iterations [⟨"user", [Block.text "hi"]⟩] 0 =
      ⟨"I encountered an error with tool calling: " ++ "boom", 1,
        [⟨"user", [Block.text "hi"]⟩]⟩ :=
  C9_provider_error_fail_fast alwaysBoom demoExec 4 [⟨"user", [Block.text "hi"]⟩] 0
    ⟨"boom"⟩ rfl

end ClaimTheorems
